import Mathlib

/-
A shallow embedding of the JSONPlaceholder API-testing notebook
(`API_Testing_and_Automation.ipynb`): six Resource Client functions
(`get_posts`, `get_post_by_id`, `get_post_comments`, `post_post`,
`put_post`, `delete_post`), five pytest-style test functions, and a
subprocess-based test driver (`run_tests`).

The HTTP library (`requests`) and the remote service are external to the
repository; they are modelled as an oracle (`World`) mapping each request
to an outcome: either a network-layer `requests.RequestException`
(connection error, timeout, ...) or a response carrying a status code and
a body.  `Response.raise_for_status` of the `requests` library raises
`requests.HTTPError` (a `RequestException`) exactly when the status code
is in 400..599; this documented behaviour is embedded as a status-range
test.  A response body is modelled by the result of calling `.json()` on
it: `some j` when the body parses as JSON value `j`, `none` when `.json()`
would raise a decode error.
-/

namespace ApiNotebook

/-- JSON values, as produced by `response.json()` of the HTTP library and
as passed via the `json=` keyword of `requests.post` / `requests.put`. -/
inductive Json where
  | str : String → Json
  | num : Int → Json
  | arr : List Json → Json
  | obj : List (String × Json) → Json

/-- Python `dict.get` on a JSON object: the value at the first matching
key, `none` when the key is absent. -/
def jsonGet : List (String × Json) → String → Option Json
  | [], _ => none
  | (k, v) :: rest, key => if k = key then some v else jsonGet rest key

/-- HTTP methods used by the notebook. -/
inductive Method where
  | GET
  | POST
  | PUT
  | DELETE
  deriving DecidableEq

/-- A single HTTP request as issued by the `requests` library calls:
method, full URL, and the optional `json=` payload. -/
structure Request where
  method : Method
  url : String
  payload : Option Json

/-- A response of the HTTP library: its `status_code` and the result of
calling `.json()` on it (`none` when the body is not valid JSON and
`.json()` would raise). -/
structure Response where
  status_code : Nat
  jsonBody : Option Json

/-- Outcome of handing one request to the HTTP library: either a
network-layer `requests.RequestException` raised by the call itself, or a
response object. -/
inductive HttpOutcome where
  | exception : HttpOutcome
  | response : Response → HttpOutcome

/-- The external network, as an oracle from requests to outcomes. -/
def World : Type := Request → HttpOutcome

/-- The six Resource Client operations, used to tag log entries. -/
inductive Operation where
  | getPosts
  | getPostById
  | getPostComments
  | postPost
  | putPost
  | deletePost
  deriving DecidableEq

/-- One `logging.error(...)` entry: which operation failed and, when the
operation takes a post identifier, that identifier (interpolated into the
message by the f-string). -/
structure LogEntry where
  op : Operation
  postId : Option Int

/-- Observable effects of one Resource Client call: the value returned to
the caller (`none` models Python `None`), the error-log entries emitted,
and the HTTP requests issued. -/
structure ClientResult where
  result : Option Response
  logs : List LogEntry
  requests : List Request

/-- The shared `try: ... response.raise_for_status(); return response`
`except requests.RequestException: logging.error(...); return None` shape
of every client function.  `raise_for_status` raises `HTTPError` exactly
for status codes 400..599. -/
def runRequest (w : World) (req : Request) (op : Operation)
    (pid : Option Int) : ClientResult :=
  match w req with
  | .exception => { result := none, logs := [⟨op, pid⟩], requests := [req] }
  | .response r =>
    if 400 ≤ r.status_code ∧ r.status_code < 600 then
      { result := none, logs := [⟨op, pid⟩], requests := [req] }
    else
      { result := some r, logs := [], requests := [req] }

def BASE_URL : String := "https://jsonplaceholder.typicode.com"

/-- Embeds `get_posts()`: GET `{BASE_URL}/posts`. -/
def get_posts (w : World) : ClientResult :=
  runRequest w { method := .GET, url := BASE_URL ++ "/posts", payload := none }
    .getPosts none

/-- Embeds `get_post_by_id(post_id)`: GET `{BASE_URL}/posts/{post_id}`. -/
def get_post_by_id (w : World) (post_id : Int) : ClientResult :=
  runRequest w
    { method := .GET, url := BASE_URL ++ "/posts/" ++ toString post_id,
      payload := none }
    .getPostById (some post_id)

/-- Embeds `get_post_comments(post_id)`: GET `{BASE_URL}/posts/{post_id}/comments`. -/
def get_post_comments (w : World) (post_id : Int) : ClientResult :=
  runRequest w
    { method := .GET,
      url := BASE_URL ++ "/posts/" ++ toString post_id ++ "/comments",
      payload := none }
    .getPostComments (some post_id)

/-- Embeds `post_post()`: POST `{BASE_URL}/posts` with the hard-coded
`data = {"title": "foo", "body": "bar", "userId": 1}` payload. -/
def post_post (w : World) : ClientResult :=
  let data := Json.obj
    [("title", .str "foo"), ("body", .str "bar"), ("userId", .num 1)]
  runRequest w
    { method := .POST, url := BASE_URL ++ "/posts", payload := some data }
    .postPost none

/-- Embeds `put_post(post_id)`: PUT `{BASE_URL}/posts/{post_id}` with the
hard-coded `data = {"title": "foo", "body": "bar updated", "userId": 1}`
payload. -/
def put_post (w : World) (post_id : Int) : ClientResult :=
  let data := Json.obj
    [("title", .str "foo"), ("body", .str "bar updated"), ("userId", .num 1)]
  runRequest w
    { method := .PUT, url := BASE_URL ++ "/posts/" ++ toString post_id,
      payload := some data }
    .putPost (some post_id)

/-- Embeds `delete_post(post_id)`: DELETE `{BASE_URL}/posts/{post_id}`. -/
def delete_post (w : World) (post_id : Int) : ClientResult :=
  runRequest w
    { method := .DELETE, url := BASE_URL ++ "/posts/" ++ toString post_id,
      payload := none }
    .deletePost (some post_id)

/-- The request each operation constructs, read off the bodies of the six
client functions (for `get_posts` and `post_post` the identifier argument
is unused). -/
def opRequest : Operation → Int → Request
  | .getPosts, _ =>
    { method := .GET, url := BASE_URL ++ "/posts", payload := none }
  | .getPostById, pid =>
    { method := .GET, url := BASE_URL ++ "/posts/" ++ toString pid,
      payload := none }
  | .getPostComments, pid =>
    { method := .GET,
      url := BASE_URL ++ "/posts/" ++ toString pid ++ "/comments",
      payload := none }
  | .postPost, _ =>
    { method := .POST, url := BASE_URL ++ "/posts",
      payload := some (Json.obj
        [("title", .str "foo"), ("body", .str "bar"), ("userId", .num 1)]) }
  | .putPost, pid =>
    { method := .PUT, url := BASE_URL ++ "/posts/" ++ toString pid,
      payload := some (Json.obj
        [("title", .str "foo"), ("body", .str "bar updated"),
         ("userId", .num 1)]) }
  | .deletePost, pid =>
    { method := .DELETE, url := BASE_URL ++ "/posts/" ++ toString pid,
      payload := none }

/-- The identifier each operation interpolates into its error log message:
`get_posts` and `post_post` take none, the others log their `post_id`. -/
def logId : Operation → Int → Option Int
  | .getPosts, _ => none
  | .postPost, _ => none
  | .getPostById, pid => some pid
  | .getPostComments, pid => some pid
  | .putPost, pid => some pid
  | .deletePost, pid => some pid

/-- Dispatch over the six operations, to quantify claims over all of them
(`pid` is ignored by the two operations that take no identifier). -/
def callOp (op : Operation) (w : World) (pid : Int) : ClientResult :=
  match op with
  | .getPosts => get_posts w
  | .getPostById => get_post_by_id w pid
  | .getPostComments => get_post_comments w pid
  | .postPost => post_post w
  | .putPost => put_post w pid
  | .deletePost => delete_post w pid

theorem callOp_eq (op : Operation) (w : World) (pid : Int) :
    callOp op w pid = runRequest w (opRequest op pid) op (logId op pid) := by
  cases op <;>
    rfl

theorem runRequest_requests (w : World) (req : Request) (op : Operation)
    (pid : Option Int) : (runRequest w req op pid).requests = [req] := by
  unfold runRequest
  cases w req with
  | exception => rfl
  | response r =>
    by_cases h : 400 ≤ r.status_code ∧ r.status_code < 600 <;>
      simp [h]

/-- Ways a test function can terminate abnormally: a failed `assert`
statement, a `ValueError` raised by `response.json()` on a body that is
not valid JSON, or an `AttributeError` raised by calling `.get` on a
non-dict value. -/
inductive TestError where
  | assertFailed
  | jsonDecodeError
  | attributeError

/-- Python `==` between the value returned by `dict.get` (a JSON value or
`None`) and an int literal: true exactly for an equal JSON number;
`None`, strings, lists and dicts compare unequal to an int. -/
def pyEqInt : Option Json → Int → Bool
  | some (.num n), m => n == m
  | _, _ => false

/-- Python `==` between the value returned by `dict.get` (a JSON value or
`None`) and a string literal: true exactly for an equal JSON string. -/
def pyEqStr : Option Json → String → Bool
  | some (.str s), t => s == t
  | _, _ => false

/-- Embeds `test_get_posts()`: asserts the result of `get_posts()` is not
`None`, its status code is 200, `response.json()` is a list, and that
list is non-empty. -/
def test_get_posts (w : World) : Except TestError Unit :=
  match (get_posts w).result with
  | none => .error .assertFailed
  | some r =>
    if r.status_code = 200 then
      match r.jsonBody with
      | none => .error .jsonDecodeError
      | some (.arr xs) =>
        if 0 < xs.length then .ok () else .error .assertFailed
      | some _ => .error .assertFailed
    else .error .assertFailed

/-- Embeds `test_get_post_by_id()`: asserts the result of
`get_post_by_id(1)` is not `None`, its status code is 200, and
`response.json().get('id') == 1`. -/
def test_get_post_by_id (w : World) : Except TestError Unit :=
  match (get_post_by_id w 1).result with
  | none => .error .assertFailed
  | some r =>
    if r.status_code = 200 then
      match r.jsonBody with
      | none => .error .jsonDecodeError
      | some (.obj fs) =>
        if pyEqInt (jsonGet fs "id") 1 then .ok () else .error .assertFailed
      | some _ => .error .attributeError
    else .error .assertFailed

/-- Embeds `test_post_post()`: asserts the result of `post_post()` is not
`None`, its status code is 201, and `response.json().get('title') == 'foo'`. -/
def test_post_post (w : World) : Except TestError Unit :=
  match (post_post w).result with
  | none => .error .assertFailed
  | some r =>
    if r.status_code = 201 then
      match r.jsonBody with
      | none => .error .jsonDecodeError
      | some (.obj fs) =>
        if pyEqStr (jsonGet fs "title") "foo" then .ok ()
        else .error .assertFailed
      | some _ => .error .attributeError
    else .error .assertFailed

/-- Embeds `test_put_post()`: asserts the result of `put_post(1)` is not
`None`, its status code is 200, and
`response.json().get('body') == 'bar updated'`. -/
def test_put_post (w : World) : Except TestError Unit :=
  match (put_post w 1).result with
  | none => .error .assertFailed
  | some r =>
    if r.status_code = 200 then
      match r.jsonBody with
      | none => .error .jsonDecodeError
      | some (.obj fs) =>
        if pyEqStr (jsonGet fs "body") "bar updated" then .ok ()
        else .error .assertFailed
      | some _ => .error .attributeError
    else .error .assertFailed

/-- Embeds `test_delete_post()`: asserts the result of `delete_post(1)`
is not `None` and has status code 200; then calls `get_post_by_id(1)`
and, when that result is not `None`, prints its status code and
`get_response.json()` (the `.json()` call raises on an unparseable body);
finally asserts the fetched result is not `None`.  No field of either
response body is asserted. -/
def test_delete_post (w : World) : Except TestError Unit :=
  match (delete_post w 1).result with
  | none => .error .assertFailed
  | some dr =>
    if dr.status_code = 200 then
      match (get_post_by_id w 1).result with
      | some gr =>
        match gr.jsonBody with
        | none => .error .jsonDecodeError
        | some _ => .ok ()
      | none => .error .assertFailed
    else .error .assertFailed

/-- Result of `subprocess.run` on the external command: the process exit
code and its captured stdout and stderr (`capture_output=True`). -/
structure ProcResult where
  exitCode : Int
  stdout : String
  stderr : String

/-- Observable effects of `run_tests()`: the external commands invoked
and the lines printed, in order. -/
structure RunTestsOut where
  commands : List (List String)
  printed : List String

/-- Embeds `run_tests()`: runs
`subprocess.run(['pytest', '--maxfail=1', '--disable-warnings', '-q'],
check=True, text=True, capture_output=True)`.  With `check=True` a
non-zero exit raises `CalledProcessError`, which is caught and the
captured stdout and stderr printed; on exit zero the captured stdout is
printed.  `proc` is the oracle for the external process. -/
def run_tests (proc : List String → ProcResult) : RunTestsOut :=
  let result := proc ["pytest", "--maxfail=1", "--disable-warnings", "-q"]
  if result.exitCode = 0 then
    { commands := [["pytest", "--maxfail=1", "--disable-warnings", "-q"]],
      printed := ["Test Results:", result.stdout] }
  else
    { commands := [["pytest", "--maxfail=1", "--disable-warnings", "-q"]],
      printed := ["Tests failed:", "Standard Output:", result.stdout,
                  "Standard Error:", result.stderr] }

/-- Modelled from the spec route table (External Interfaces section): the
HTTP method of each operation. -/
def specMethod : Operation → Method
  | .getPosts => .GET
  | .getPostById => .GET
  | .getPostComments => .GET
  | .postPost => .POST
  | .putPost => .PUT
  | .deletePost => .DELETE

/-- Modelled from the spec route table: the path of each operation, with
the id substituted into its template. -/
def specPath : Operation → Int → String
  | .getPosts, _ => "/posts"
  | .getPostById, pid => "/posts/" ++ toString pid
  | .getPostComments, pid => "/posts/" ++ toString pid ++ "/comments"
  | .postPost, _ => "/posts"
  | .putPost, pid => "/posts/" ++ toString pid
  | .deletePost, pid => "/posts/" ++ toString pid

/-- Modelled from the spec route table: the JSON payload field names of
each operation (`none` for the bodyless routes). -/
def specPayloadKeys : Operation → Option (List String)
  | .postPost => some ["title", "body", "userId"]
  | .putPost => some ["title", "body", "userId"]
  | _ => none

/-- The field names of a request payload (`none` when the request carries
no `json=` payload). -/
def payloadKeys : Option Json → Option (List String)
  | some (.obj fs) => some (fs.map Prod.fst)
  | some _ => none
  | none => none

theorem pyEqInt_eq_true_iff (x : Option Json) (m : Int) :
    pyEqInt x m = true ↔ x = some (.num m) := by
  cases x with
  | none => simp [pyEqInt]
  | some j => cases j <;> simp [pyEqInt]

theorem pyEqStr_eq_true_iff (x : Option Json) (t : String) :
    pyEqStr x t = true ↔ x = some (.str t) := by
  cases x with
  | none => simp [pyEqStr]
  | some j => cases j <;> simp [pyEqStr]

theorem test_get_posts_ok_iff (w : World) :
    test_get_posts w = .ok () ↔
      ∃ r, (get_posts w).result = some r ∧ r.status_code = 200 ∧
        ∃ xs, r.jsonBody = some (.arr xs) ∧ 0 < xs.length := by
  unfold test_get_posts
  cases hd : (get_posts w).result with
  | none => simp
  | some r =>
    by_cases hs : r.status_code = 200
    · cases hb : r.jsonBody with
      | none => simp [hs, hb]
      | some j =>
        cases j <;> simp [hs, hb, List.length_pos]
    · simp [hs]

theorem test_get_post_by_id_ok_iff (w : World) :
    test_get_post_by_id w = .ok () ↔
      ∃ r, (get_post_by_id w 1).result = some r ∧ r.status_code = 200 ∧
        ∃ fs, r.jsonBody = some (.obj fs) ∧
          jsonGet fs "id" = some (.num 1) := by
  unfold test_get_post_by_id
  cases hd : (get_post_by_id w 1).result with
  | none => simp
  | some r =>
    by_cases hs : r.status_code = 200
    · cases hb : r.jsonBody with
      | none => simp [hs, hb]
      | some j =>
        cases j <;> simp [hs, hb, pyEqInt_eq_true_iff]
    · simp [hs]

theorem test_post_post_ok_iff (w : World) :
    test_post_post w = .ok () ↔
      ∃ r, (post_post w).result = some r ∧ r.status_code = 201 ∧
        ∃ fs, r.jsonBody = some (.obj fs) ∧
          jsonGet fs "title" = some (.str "foo") := by
  unfold test_post_post
  cases hd : (post_post w).result with
  | none => simp
  | some r =>
    by_cases hs : r.status_code = 201
    · cases hb : r.jsonBody with
      | none => simp [hs, hb]
      | some j =>
        cases j <;> simp [hs, hb, pyEqStr_eq_true_iff]
    · simp [hs]

theorem test_put_post_ok_iff (w : World) :
    test_put_post w = .ok () ↔
      ∃ r, (put_post w 1).result = some r ∧ r.status_code = 200 ∧
        ∃ fs, r.jsonBody = some (.obj fs) ∧
          jsonGet fs "body" = some (.str "bar updated") := by
  unfold test_put_post
  cases hd : (put_post w 1).result with
  | none => simp
  | some r =>
    by_cases hs : r.status_code = 200
    · cases hb : r.jsonBody with
      | none => simp [hs, hb]
      | some j =>
        cases j <;> simp [hs, hb, pyEqStr_eq_true_iff]
    · simp [hs]

theorem test_delete_post_ok_iff (w : World) :
    test_delete_post w = .ok () ↔
      (∃ dr, (delete_post w 1).result = some dr ∧ dr.status_code = 200) ∧
      ∃ gr, (get_post_by_id w 1).result = some gr ∧ gr.jsonBody.isSome := by
  unfold test_delete_post
  cases hd : (delete_post w 1).result with
  | none => simp
  | some dr =>
    by_cases hs : dr.status_code = 200
    · cases hg : (get_post_by_id w 1).result with
      | none => simp [hs]
      | some gr =>
        cases hb : gr.jsonBody with
        | none => simp [hs, hb]
        | some j => simp [hs, hb]
    · simp [hs]

/-- A network oracle on which every request raises a network-layer
`RequestException` (unreachable network). -/
def wDown : World := fun _ => .exception

/-- A network oracle answering every request with status 304 (Not
Modified): a non-2xx status that `raise_for_status` does not raise on. -/
def w304 : World := fun _ =>
  .response { status_code := 304, jsonBody := some (.obj []) }

/-- A network oracle answering every request with status 404 and an
unparseable body. -/
def w404 : World := fun _ =>
  .response { status_code := 404, jsonBody := none }

/-- Claim C1: every Resource Client operation, on a network-layer
exception or an HTTP-error outcome (a status in 400..599, on which
`raise_for_status` raises) of its single request, returns `None` and
emits exactly one error-log entry naming the operation and, when the
operation takes one, the offending post identifier. -/
theorem client_recovers_errors_with_single_log (op : Operation) (pid : Int)
    (w : World)
    (h : w (opRequest op pid) = .exception ∨
      ∃ r, w (opRequest op pid) = .response r ∧
        400 ≤ r.status_code ∧ r.status_code < 600) :
    (callOp op w pid).result = none ∧
    (callOp op w pid).logs = [⟨op, logId op pid⟩] := by
  rw [callOp_eq]
  unfold runRequest
  rcases h with h | ⟨r, hr, hs⟩
  · rw [h]
    exact ⟨rfl, rfl⟩
  · rw [hr]
    simp [hs]

/-- Witness for C1: against an unreachable network, `get_post_by_id(7)`
returns `None` and logs one error naming the operation and id 7. -/
theorem client_recovers_errors_with_single_log_witness :
    (callOp .getPostById wDown 7).result = none ∧
    (callOp .getPostById wDown 7).logs = [⟨.getPostById, some 7⟩] :=
  client_recovers_errors_with_single_log .getPostById 7 wDown (Or.inl rfl)

/-- Claim C2 counterexample: a 304 response is not in the 2xx range, yet
`get_posts` returns its envelope unchanged and logs nothing, because
`raise_for_status` raises only for statuses 400..599. -/
theorem non2xx_envelope_returned_at_304 :
    (get_posts w304).result =
      some { status_code := 304, jsonBody := some (.obj []) } ∧
    (get_posts w304).logs = [] ∧
    ¬ (200 ≤ (304 : Nat) ∧ (304 : Nat) < 300) :=
  ⟨rfl, rfl, by decide⟩

/-- Claim C2 as amended: for every operation and every response outcome,
the operation logs one error and yields `None` exactly when the status
code is in 400..599 (where `raise_for_status` raises); for any other
status — all of 1xx, 2xx and 3xx — the envelope is returned with no log. -/
theorem client_failure_marker_exactly_on_4xx_5xx (op : Operation)
    (pid : Int) (w : World) (r : Response)
    (h : w (opRequest op pid) = .response r) :
    (callOp op w pid).result =
      (if 400 ≤ r.status_code ∧ r.status_code < 600 then none else some r) ∧
    (callOp op w pid).logs =
      (if 400 ≤ r.status_code ∧ r.status_code < 600
        then [⟨op, logId op pid⟩] else ([] : List LogEntry)) := by
  rw [callOp_eq]
  unfold runRequest
  rw [h]
  by_cases hs : 400 ≤ r.status_code ∧ r.status_code < 600 <;> simp [hs]

/-- Witness for the amended C2: a 404 response makes `delete_post(7)`
return `None` with one log entry. -/
theorem client_failure_marker_exactly_on_4xx_5xx_witness :
    (callOp .deletePost w404 7).result = none ∧
    (callOp .deletePost w404 7).logs = [⟨.deletePost, some 7⟩] := by
  have h := client_failure_marker_exactly_on_4xx_5xx .deletePost 7 w404
    { status_code := 404, jsonBody := none } rfl
  simpa using h

/-- Claim C4: every operation issues exactly the request of the fixed
route table against the fixed base URL: its method, its path (with the
id substituted), and its payload field names (`title`, `body`, `userId`
for create and update; no payload otherwise). -/
theorem operations_follow_fixed_route_table (op : Operation) (pid : Int)
    (w : World) :
    ∃ req, (callOp op w pid).requests = [req] ∧
      req.method = specMethod op ∧
      req.url = BASE_URL ++ specPath op pid ∧
      payloadKeys req.payload = specPayloadKeys op := by
  refine ⟨opRequest op pid, ?_, ?_, ?_, ?_⟩
  · rw [callOp_eq]
    exact runRequest_requests w (opRequest op pid) op (logId op pid)
  · cases op <;> rfl
  · cases op <;> rfl
  · cases op <;> rfl

/-- Claim C6: on a successful (2xx) outcome, every operation returns the
exact response object produced by the HTTP call, unmodified. -/
theorem success_returns_envelope_unmodified (op : Operation) (pid : Int)
    (w : World) (r : Response)
    (hresp : w (opRequest op pid) = .response r)
    (h2xx : 200 ≤ r.status_code ∧ r.status_code < 300) :
    (callOp op w pid).result = some r := by
  rw [callOp_eq]
  unfold runRequest
  rw [hresp]
  have hne : ¬ (400 ≤ r.status_code ∧ r.status_code < 600) := by omega
  simp [hne]

/-- A network oracle answering every request with a 200 response whose
body is a one-element list. -/
def wList200 : World := fun _ =>
  .response { status_code := 200, jsonBody := some (.arr [.obj [("id", .num 1)]]) }

/-- Witness for C6: a 200 response from `get_posts` is returned as-is. -/
theorem success_returns_envelope_unmodified_witness :
    (callOp .getPosts wList200 0).result =
      some { status_code := 200,
             jsonBody := some (.arr [.obj [("id", .num 1)]]) } :=
  success_returns_envelope_unmodified .getPosts 0 wList200
    { status_code := 200, jsonBody := some (.arr [.obj [("id", .num 1)]]) }
    rfl (by decide)

/-- Claim C7: every invocation of every operation issues exactly one
HTTP request, whatever the outcome — no retries, no second request. -/
theorem each_operation_performs_exactly_one_request (op : Operation)
    (pid : Int) (w : World) :
    (callOp op w pid).requests.length = 1 := by
  rw [callOp_eq, runRequest_requests]
  rfl

/-- A network oracle whose DELETE responses carry status 200 with an
empty JSON object body (as the mock backend returns for deletes) and
whose other responses carry status 200 with a body holding only an id
field. -/
def wNoFields : World := fun req =>
  match req.method with
  | .DELETE => .response { status_code := 200, jsonBody := some (.obj []) }
  | _ =>
    .response
      { status_code := 200, jsonBody := some (.obj [("id", .num 1)]) }

/-- Claim C3 counterexample: the delete test asserts no field of any
response body — it passes on a world where the delete response body is
the empty object, containing neither a `title` nor a `body` field. -/
theorem delete_test_asserts_no_body_field :
    test_delete_post wNoFields = .ok () ∧
    (delete_post wNoFields 1).result =
      some { status_code := 200, jsonBody := some (.obj []) } ∧
    jsonGet [] "title" = none ∧
    jsonGet [] "body" = none :=
  ⟨by rfl, by rfl, rfl, rfl⟩

/-- Claim C3 as amended: each test asserts a non-null result and the
expected status code (200 for the reads and update, 201 for create, 200
for delete), and the collection fetch, single fetch, create and update
tests additionally assert one semantic body field (non-empty list; id
equal to 1; title equal to foo; body equal to bar updated) — but the
delete test asserts no body field: it requires only a non-null delete
result with status 200 and a non-null follow-up fetch whose body the
test's print can decode. -/
theorem test_suite_asserted_conditions (w : World) :
    (test_get_posts w = .ok () ↔
      ∃ r, (get_posts w).result = some r ∧ r.status_code = 200 ∧
        ∃ xs, r.jsonBody = some (.arr xs) ∧ 0 < xs.length) ∧
    (test_get_post_by_id w = .ok () ↔
      ∃ r, (get_post_by_id w 1).result = some r ∧ r.status_code = 200 ∧
        ∃ fs, r.jsonBody = some (.obj fs) ∧
          jsonGet fs "id" = some (.num 1)) ∧
    (test_post_post w = .ok () ↔
      ∃ r, (post_post w).result = some r ∧ r.status_code = 201 ∧
        ∃ fs, r.jsonBody = some (.obj fs) ∧
          jsonGet fs "title" = some (.str "foo")) ∧
    (test_put_post w = .ok () ↔
      ∃ r, (put_post w 1).result = some r ∧ r.status_code = 200 ∧
        ∃ fs, r.jsonBody = some (.obj fs) ∧
          jsonGet fs "body" = some (.str "bar updated")) ∧
    (test_delete_post w = .ok () ↔
      (∃ dr, (delete_post w 1).result = some dr ∧ dr.status_code = 200) ∧
      ∃ gr, (get_post_by_id w 1).result = some gr ∧ gr.jsonBody.isSome) :=
  ⟨test_get_posts_ok_iff w, test_get_post_by_id_ok_iff w,
   test_post_post_ok_iff w, test_put_post_ok_iff w,
   test_delete_post_ok_iff w⟩

/-- A network oracle modelling the mock backend after a delete that did
not really remove the record: the DELETE returns 200 with an empty
object, and the follow-up GET of post 1 still returns the full record
with status 200. -/
def wStale : World := fun req =>
  match req.method with
  | .DELETE => .response { status_code := 200, jsonBody := some (.obj []) }
  | _ =>
    .response
      { status_code := 200,
        jsonBody := some (.obj
          [("userId", .num 1), ("id", .num 1),
           ("title", .str "sunt aut facere repellat provident"),
           ("body", .str "quia et suscipit")]) }

/-- Claim C5: the delete test passes exactly when the delete of id 1
returns a non-null result with status 200 and the follow-up fetch of
id 1 yields a non-null result (with a decodable body, read by the test's
print) — no condition on the follow-up status code appears; and it does
pass on a world where the backing service has not removed the record and
the follow-up fetch still returns the full record. -/
theorem delete_test_probe_contract (w : World) :
    (test_delete_post w = .ok () ↔
      (∃ dr, (delete_post w 1).result = some dr ∧ dr.status_code = 200) ∧
      ∃ gr, (get_post_by_id w 1).result = some gr ∧ gr.jsonBody.isSome) ∧
    test_delete_post wStale = .ok () :=
  ⟨test_delete_post_ok_iff w, by rfl⟩

/-- Claim C8: the driver invokes exactly the external command
`pytest --maxfail=1 --disable-warnings -q` (first-failure limit, warning
suppression, quiet output) once; on exit zero it prints the captured
stdout under a results header, and on non-zero exit the raised
`CalledProcessError` is caught and the captured stdout and stderr are
printed under failure headers. -/
theorem run_tests_command_and_output (proc : List String → ProcResult) :
    (run_tests proc).commands =
      [["pytest", "--maxfail=1", "--disable-warnings", "-q"]] ∧
    (run_tests proc).printed =
      (if (proc ["pytest", "--maxfail=1", "--disable-warnings", "-q"]).exitCode
          = 0 then
        ["Test Results:",
         (proc ["pytest", "--maxfail=1", "--disable-warnings", "-q"]).stdout]
      else
        ["Tests failed:", "Standard Output:",
         (proc ["pytest", "--maxfail=1", "--disable-warnings", "-q"]).stdout,
         "Standard Error:",
         (proc ["pytest", "--maxfail=1", "--disable-warnings", "-q"]).stderr]) := by
  unfold run_tests
  by_cases h :
      (proc ["pytest", "--maxfail=1", "--disable-warnings", "-q"]).exitCode
        = 0 <;>
    simp [h]

/-- A network oracle answering every request with a 200 response whose
body is not valid JSON (so `.json()` on it would raise). -/
def wUnparseable : World := fun _ =>
  .response { status_code := 200, jsonBody := none }

/-- Claim C9: the client never parses the response body — a 2xx response
whose body is not valid JSON is still returned as a non-null success with
no log by every operation, and the decode failure surfaces only when a
caller parses the body, as `test_get_posts` does, failing with a decode
error rather than on its non-null assert. -/
theorem client_ignores_body_parseability :
    (∀ (op : Operation) (pid : Int) (w : World) (r : Response),
      w (opRequest op pid) = .response r →
      200 ≤ r.status_code → r.status_code < 300 →
      r.jsonBody = none →
      (callOp op w pid).result = some r ∧ (callOp op w pid).logs = []) ∧
    (∀ w : World,
      w (opRequest .getPosts 0) =
        .response { status_code := 200, jsonBody := none } →
      test_get_posts w = .error .jsonDecodeError) := by
  constructor
  · intro op pid w r hresp hlo hhi _
    rw [callOp_eq]
    unfold runRequest
    rw [hresp]
    have hne : ¬ (400 ≤ r.status_code ∧ r.status_code < 600) := by omega
    simp [hne]
  · intro w hw
    have hw2 :
        w { method := .GET, url := BASE_URL ++ "/posts", payload := none } =
          .response { status_code := 200, jsonBody := none } := hw
    have hres : (get_posts w).result =
        some { status_code := 200, jsonBody := none } := by
      unfold get_posts runRequest
      rw [hw2]
      rfl
    unfold test_get_posts
    rw [hres]
    rfl

/-- Witness for C9: on a network whose 200 responses carry an invalid
body, `get_posts` returns a non-null envelope and `test_get_posts` fails
with a decode error. -/
theorem client_ignores_body_parseability_witness :
    (callOp .getPosts wUnparseable 0).result =
      some { status_code := 200, jsonBody := none } ∧
    test_get_posts wUnparseable = .error .jsonDecodeError :=
  ⟨(client_ignores_body_parseability.1 .getPosts 0 wUnparseable
      { status_code := 200, jsonBody := none } rfl (by decide) (by decide)
      rfl).1,
   client_ignores_body_parseability.2 wUnparseable rfl⟩

/-- Claim C10: create takes no payload argument and update only the id —
their payloads are the hard-coded constants, so the requests they issue
are identical across any two invocations (with the same id, for update)
and equal to the fixed hard-coded request. -/
theorem mutation_requests_deterministic_and_hardcoded (w1 w2 : World)
    (pid : Int) :
    (post_post w1).requests = (post_post w2).requests ∧
    (put_post w1 pid).requests = (put_post w2 pid).requests ∧
    (post_post w1).requests =
      [{ method := .POST, url := BASE_URL ++ "/posts",
         payload := some (Json.obj
           [("title", .str "foo"), ("body", .str "bar"),
            ("userId", .num 1)]) }] ∧
    (put_post w1 pid).requests =
      [{ method := .PUT, url := BASE_URL ++ "/posts/" ++ toString pid,
         payload := some (Json.obj
           [("title", .str "foo"), ("body", .str "bar updated"),
            ("userId", .num 1)]) }] := by
  refine ⟨?_, ?_, ?_, ?_⟩ <;>
    simp [post_post, put_post, runRequest_requests]

end ApiNotebook
